import Mathlib

/-!
Shallow embedding of `src/services/chatAPI.ts` (browser-side chat HTTP client).

The module is deterministic single-threaded async code.  We model:
  * the mutable browser state (`localStorage` auth token, dispatched DOM
    events) as an explicit `St` record threaded through every function;
  * each `fetch` call's outcome as data supplied by an `Env` record
    (one outcome per endpoint, since each operation performs at most one
    call per endpoint);
  * the temporal structure (request dispatch, awaiting, token rotation,
    auth handling, body extraction) as an explicit `Action` trace appended
    to the state, mirroring the order in which the JS engine executes the
    corresponding statements;
  * the outgoing requests (which endpoint, which `user_id`/`session_id`
    payload or query parameter) as a `Request` log;
  * JavaScript truthiness on strings (`""`, `null` and `undefined` are
    falsy) via `Option String` plus explicit `jsOr`/`jsTruthyOpt` helpers;
  * thrown exceptions as `Except String` results (the carried string is
    the `String(e)` rendering of the thrown value).
-/

namespace ChatAPI

/-- A chat message; its internal structure is irrelevant to this module,
which only ever concatenates histories. -/
abbrev ChatMessage := String

/-- The parsed JSON body of a chat upstream response.  The TS code accesses
the fields through optional chaining (`?.response` etc.) and `||` defaults,
so each field may be absent. -/
structure ChatJson where
  response : Option String
  conversation_history : Option (List ChatMessage)
  session_id : Option String
deriving DecidableEq, Repr

/-- Parsed JSON body of the `/auth/me` identity lookup: `data.email`. -/
structure AuthMeBody where
  email : Option String
deriving DecidableEq, Repr

/-- An opaque parsed JSON body for the uniform forwarding operations
(session creation, history, health, sessions list, route): none of their
body contents matter to this module's logic. -/
structure JsonValue where
  raw : String
deriving DecidableEq, Repr

/-- An HTTP response: status code, the optional `x-access-token` rotation
header, and the parsed body. -/
structure HttpResp (β : Type) where
  status : Nat
  rotationToken : Option String
  body : β
deriving DecidableEq, Repr

/-- `Response.ok` of the fetch API: status in the range 200–299. -/
def HttpResp.ok {β : Type} (r : HttpResp β) : Bool :=
  decide (200 ≤ r.status ∧ r.status ≤ 299)

/-- Outcome of a `fetch` call: the promise resolves with a response, or
rejects (network error) with an exception whose string rendering is kept. -/
inductive FetchOutcome (β : Type) where
  | success (resp : HttpResp β)
  | failure (msg : String)
deriving DecidableEq, Repr

/-- The endpoints this module talks to. -/
inductive Endpoint where
  | authMe
  | ruhChat
  | ugcChat
  | chatSession
  | feedback
  | history
  | health
  | sessions
  | route
deriving DecidableEq, Repr

/-- One step of observable temporal behaviour: a request being dispatched,
its promise being awaited (`awaited` when it resolves with a response,
`awaitFailed` when it rejects with a network error, in which case there is
no response to process), rotation/auth-error handling being applied to a
response, and a response body being extracted. -/
inductive Action where
  | dispatch (e : Endpoint)
  | awaited (e : Endpoint)
  | awaitFailed (e : Endpoint)
  | rotate (e : Endpoint)
  | authHandle (e : Endpoint)
  | extract (e : Endpoint)
deriving DecidableEq, Repr

/-- The endpoint an action concerns. -/
def Action.endpointOf : Action → Endpoint
  | Action.dispatch e => e
  | Action.awaited e => e
  | Action.awaitFailed e => e
  | Action.rotate e => e
  | Action.authHandle e => e
  | Action.extract e => e

/-- Whether an action is a request dispatch. -/
def Action.isDispatch : Action → Bool
  | Action.dispatch _ => true
  | _ => false

/-- A DOM event dispatched by `handleAuthError`: either a `CustomEvent`
(normal path) or a `document.createEvent` legacy event (fallback path when
the `CustomEvent` constructor throws).  Both carry the event name and the
`detail.status` payload. -/
inductive AuthEvent where
  | customEvent (name : String) (status : Nat)
  | legacyEvent (name : String) (status : Nat)
deriving DecidableEq, Repr

/-- The status payload carried by a dispatched event. -/
def AuthEvent.statusOf : AuthEvent → Nat
  | AuthEvent.customEvent _ s => s
  | AuthEvent.legacyEvent _ s => s

/-- The event name carried by a dispatched event. -/
def AuthEvent.nameOf : AuthEvent → String
  | AuthEvent.customEvent n _ => n
  | AuthEvent.legacyEvent n _ => n

/-- A record of one outgoing HTTP request: the endpoint, the path segment
chosen by `routeLatest` (`"ruh"` or `"ugc"`), and the identity-related
payload.  `user_id = none` means the serialized request carries no
`user_id` at all (key omitted from `JSON.stringify` output, or query
parameter not appended); `user_id = some v` means a `user_id` with value
`v` is present (`v = none` being JSON `null`). -/
structure Request where
  endpoint : Endpoint
  prefixStr : Option String
  user_id : Option (Option String)
  session_id : Option String
  message : Option String
  guidance_filter : Option String
  message_index : Option Nat
  feedback_type : Option String
deriving DecidableEq, Repr

/-- An empty request skeleton for an endpoint. -/
def Request.base (e : Endpoint) : Request :=
  ⟨e, none, none, none, none, none, none, none⟩

/-- The browser-visible mutable state: the `auth_token` entry of
`localStorage`, the list of dispatched `auth:logout` events, the temporal
action trace and the log of outgoing requests. -/
structure St where
  authToken : Option String
  events : List AuthEvent
  trace : List Action
  requests : List Request
deriving DecidableEq, Repr

/-- The deterministic environment of one operation: the role classifier,
fault-injection flags for `localStorage.removeItem` and the `CustomEvent`
constructor, and the outcome each endpoint's `fetch` would produce. -/
structure Env where
  isUndergraduate : Option String → Bool
  removeItemThrows : Bool
  customEventThrows : Bool
  authMe : FetchOutcome AuthMeBody
  ruh : FetchOutcome ChatJson
  ugc : FetchOutcome ChatJson
  chatSession : FetchOutcome JsonValue
  feedback : FetchOutcome JsonValue
  history : FetchOutcome JsonValue
  health : FetchOutcome JsonValue
  sessions : FetchOutcome JsonValue
  route : FetchOutcome JsonValue

/-- JavaScript truthiness of a nullable string: `null`/`undefined` and the
empty string are falsy. -/
def jsTruthyOpt (o : Option String) : Bool :=
  match o with
  | some s => !(s == "")
  | none => false

/-- JavaScript `x || d` for a nullable string `x` and string default `d`. -/
def jsOr (o : Option String) (d : String) : String :=
  match o with
  | some s => if s = "" then d else s
  | none => d

/-- JavaScript `x || null` for a nullable string (used for `data.email || null`). -/
def jsStrOrNull (o : Option String) : Option String :=
  match o with
  | some s => if s = "" then none else some s
  | none => none

/-- JavaScript `xs || []` for a nullable list. -/
def jsOrList (o : Option (List ChatMessage)) : List ChatMessage :=
  o.getD []

/-- Modelled from the spec: `getAccessToken` is imported from `./authAPI`,
whose source is not part of the provided repository files.  The spec
describes the AuthToken as "an opaque string held in process-wide storage
... read before every request", so the accessor reads the stored token. -/
def getAccessToken (st : St) : Option String :=
  st.authToken

/-- Record a `fetch(...)` call being issued: the request goes on the wire
(request log) and the dispatch is a trace step. -/
def recordDispatch (req : Request) (st : St) : St :=
  { st with trace := st.trace ++ [Action.dispatch req.endpoint],
            requests := st.requests ++ [req] }

/-- `updateAccessTokenFromResponse` (chatAPI.ts lines 32–37): adopt the
`x-access-token` header, when present and non-empty, into stored state. -/
def updateAccessTokenFromResponse {β : Type} (r : HttpResp β) (st : St) : St :=
  match r.rotationToken with
  | some t => if t = "" then st else { st with authToken := some t }
  | none => st

/-- `handleAuthError` (chatAPI.ts lines 39–60): on a 401/403 status, clear
the stored token (failure of `removeItem` is swallowed) and dispatch an
`auth:logout` event carrying the status; if the `CustomEvent` constructor
throws, fall back to the `document.createEvent` legacy path. -/
def handleAuthError {β : Type} (env : Env) (r : HttpResp β) (st : St) : St :=
  if r.status = 401 ∨ r.status = 403 then
    let st1 := if env.removeItemThrows then st else { st with authToken := none }
    if env.customEventThrows then
      { st1 with events := st1.events ++ [AuthEvent.legacyEvent "auth:logout" r.status] }
    else
      { st1 with events := st1.events ++ [AuthEvent.customEvent "auth:logout" r.status] }
  else st

/-- `fetchUserEmailFromProfile` (chatAPI.ts lines 11–30): with a truthy
stored token, GET `/auth/me`; any network failure or non-ok status yields
`null`; on success return `data.email || null`.  Note: this function
applies neither `updateAccessTokenFromResponse` nor `handleAuthError` to
the `/auth/me` response. -/
def fetchUserEmailFromProfile (env : Env) (st : St) : Option String × St :=
  let token := getAccessToken st
  if jsTruthyOpt token then
    let st1 := recordDispatch (Request.base Endpoint.authMe) st
    match env.authMe with
    | FetchOutcome.failure _ =>
        (none, { st1 with trace := st1.trace ++ [Action.awaitFailed Endpoint.authMe] })
    | FetchOutcome.success r =>
        let st2 := { st1 with trace := st1.trace ++ [Action.awaited Endpoint.authMe] }
        if r.ok then
          (jsStrOrNull r.body.email,
           { st2 with trace := st2.trace ++ [Action.extract Endpoint.authMe] })
        else
          (none, st2)
  else
    (none, st)

/-- The per-side processing block of `sendMessage`'s non-undergraduate
path (chatAPI.ts lines 152–192): await the side's promise, run rotation
and auth-error handling, and produce either the parsed body (ok status),
an HTTP-failure placeholder, or a network-error placeholder. -/
def processChatSide (env : Env) (e : Endpoint) (label : String)
    (o : FetchOutcome ChatJson) (sessionId : String) (st : St) : ChatJson × St :=
  match o with
  | FetchOutcome.failure msg =>
      ({ response := some (label ++ " request error: " ++ msg),
         conversation_history := some [],
         session_id := some sessionId },
       { st with trace := st.trace ++ [Action.awaitFailed e] })
  | FetchOutcome.success r =>
      let st1 := { st with trace := st.trace ++ [Action.awaited e] }
      let st2 := updateAccessTokenFromResponse r
        { st1 with trace := st1.trace ++ [Action.rotate e] }
      let st3 := handleAuthError env r
        { st2 with trace := st2.trace ++ [Action.authHandle e] }
      if r.ok then
        (r.body, { st3 with trace := st3.trace ++ [Action.extract e] })
      else
        ({ response := some (label ++ " request failed: " ++ toString r.status),
           conversation_history := some [],
           session_id := some sessionId }, st3)

/-- The combined-response construction of `sendMessage` (chatAPI.ts lines
201–213), with JavaScript `?.` / `||` semantics on the field accesses. -/
def combineResponses (ruhRespJson ugcRespJson : ChatJson) (sessionId : String) : ChatJson :=
  { response := some ("[RUH]\n" ++ jsOr ruhRespJson.response "(no response)"
      ++ "\n\n[UGC]\n" ++ jsOr ugcRespJson.response "(no response)"),
    conversation_history := some (jsOrList ruhRespJson.conversation_history
      ++ jsOrList ugcRespJson.conversation_history),
    session_id := some (jsOr ruhRespJson.session_id
      (jsOr ugcRespJson.session_id sessionId)) }

/-- The request body `postBodyBase` of `sendMessage` (lines 72–79), as a
request record for a chat endpoint: `guidance_filter` is included only
when truthy. -/
def chatRequest (e : Endpoint) (message sessionId : String)
    (userEmail : Option String) (guidanceFilter : Option String) : Request :=
  { Request.base e with
      user_id := some userEmail,
      session_id := some sessionId,
      message := some message,
      guidance_filter := if jsTruthyOpt guidanceFilter then guidanceFilter else none }

/-- `ApiService.sendMessage` (chatAPI.ts lines 63–218).  The three-way
branch on `onlyUseRuh` mirrors the promise-creation `if`/`else if`/`else`
(lines 107–145); since in each branch exactly the created promises are
non-null, the `if (ruhPromise)` / `if (ugcPromise)` awaiting blocks and
the final single-side/combined selection (lines 194–213) reduce to the
per-branch code below.  A thrown error is an `Except.error` carrying the
thrown value's string rendering (the top-level catch only logs and
re-throws). -/
def sendMessage (env : Env) (message sessionId : String)
    (guidanceFilter : Option String) (onlyUseRuh : Option Bool) (st : St) :
    Except String ChatJson × St :=
  let fres := fetchUserEmailFromProfile env st
  let userEmail := fres.1
  let st0 := fres.2
  if env.isUndergraduate userEmail then
    -- undergraduates: single RUH endpoint, failure thrown (lines 84–98)
    let st1 := recordDispatch (chatRequest Endpoint.ruhChat message sessionId userEmail guidanceFilter) st0
    match env.ruh with
    | FetchOutcome.failure msg =>
        (Except.error msg, { st1 with trace := st1.trace ++ [Action.awaitFailed Endpoint.ruhChat] })
    | FetchOutcome.success r =>
        let st2 := { st1 with trace := st1.trace ++ [Action.awaited Endpoint.ruhChat] }
        let st3 := updateAccessTokenFromResponse r
          { st2 with trace := st2.trace ++ [Action.rotate Endpoint.ruhChat] }
        let st4 := handleAuthError env r
          { st3 with trace := st3.trace ++ [Action.authHandle Endpoint.ruhChat] }
        if r.ok then
          (Except.ok r.body, { st4 with trace := st4.trace ++ [Action.extract Endpoint.ruhChat] })
        else
          (Except.error ("HTTP error! status: " ++ toString r.status), st4)
  else
    match onlyUseRuh with
    | none =>
        -- legacy: dispatch both, then process RUH, then UGC, then combine
        let st1 := recordDispatch (chatRequest Endpoint.ruhChat message sessionId userEmail guidanceFilter) st0
        let st2 := recordDispatch (chatRequest Endpoint.ugcChat message sessionId userEmail guidanceFilter) st1
        let pr := processChatSide env Endpoint.ruhChat "RUH" env.ruh sessionId st2
        let pu := processChatSide env Endpoint.ugcChat "UGC" env.ugc sessionId pr.2
        (Except.ok (combineResponses pr.1 pu.1 sessionId), pu.2)
    | some true =>
        let st1 := recordDispatch (chatRequest Endpoint.ruhChat message sessionId userEmail guidanceFilter) st0
        let pr := processChatSide env Endpoint.ruhChat "RUH" env.ruh sessionId st1
        (Except.ok pr.1, pr.2)
    | some false =>
        let st1 := recordDispatch (chatRequest Endpoint.ugcChat message sessionId userEmail guidanceFilter) st0
        let pu := processChatSide env Endpoint.ugcChat "UGC" env.ugc sessionId st1
        (Except.ok pu.1, pu.2)

/-- The shared tail of the uniform forwarding operations: await the call,
run rotation and auth-error handling, throw `HTTP error! status: s` on a
non-ok status, otherwise extract and return the parsed body. -/
def uniformFinish (env : Env) (e : Endpoint) (o : FetchOutcome JsonValue) (st : St) :
    Except String JsonValue × St :=
  match o with
  | FetchOutcome.failure msg =>
      (Except.error msg, { st with trace := st.trace ++ [Action.awaitFailed e] })
  | FetchOutcome.success r =>
      let st1 := { st with trace := st.trace ++ [Action.awaited e] }
      let st2 := updateAccessTokenFromResponse r
        { st1 with trace := st1.trace ++ [Action.rotate e] }
      let st3 := handleAuthError env r
        { st2 with trace := st2.trace ++ [Action.authHandle e] }
      if r.ok then
        (Except.ok r.body, { st3 with trace := st3.trace ++ [Action.extract e] })
      else
        (Except.error ("HTTP error! status: " ++ toString r.status), st3)

/-- `ApiService.createNewChatSession` (lines 249–272): resolve the user
when the argument is falsy, POST `/chat/session` with body
`{user_id: resolvedUser}` (the key is serialized even when `null`). -/
def createNewChatSession (env : Env) (userId : Option String) (st : St) :
    Except String JsonValue × St :=
  let rres := if jsTruthyOpt userId then (userId, st) else fetchUserEmailFromProfile env st
  let resolvedUser := rres.1
  let st0 := rres.2
  let st1 := recordDispatch
    { Request.base Endpoint.chatSession with user_id := some resolvedUser } st0
  uniformFinish env Endpoint.chatSession env.chatSession st1

/-- `ApiService.sendFeedback` (lines 275–304): POST `/feedback` with the
raw `userId` argument (no identity resolution; an absent `userId`
serializes to no `user_id` key at all); the response body is never read. -/
def sendFeedback (env : Env) (sessionId : String) (messageIndex : Nat)
    (feedbackType : String) (userId : Option String) (st : St) :
    Except String Unit × St :=
  let st1 := recordDispatch
    { Request.base Endpoint.feedback with
        session_id := some sessionId,
        message_index := some messageIndex,
        feedback_type := some feedbackType,
        user_id := match userId with
          | some u => some (some u)
          | none => none } st
  match env.feedback with
  | FetchOutcome.failure msg =>
      (Except.error msg, { st1 with trace := st1.trace ++ [Action.awaitFailed Endpoint.feedback] })
  | FetchOutcome.success r =>
      let st2 := { st1 with trace := st1.trace ++ [Action.awaited Endpoint.feedback] }
      let st3 := updateAccessTokenFromResponse r
        { st2 with trace := st2.trace ++ [Action.rotate Endpoint.feedback] }
      let st4 := handleAuthError env r
        { st3 with trace := st3.trace ++ [Action.authHandle Endpoint.feedback] }
      if r.ok then (Except.ok (), st4)
      else (Except.error ("HTTP error! status: " ++ toString r.status), st4)

/-- `ApiService.getChatHistory` (lines 331–357): resolve the user when the
argument is falsy; append the `user_id` query parameter only when the
resolved user is truthy. -/
def getChatHistory (env : Env) (sessionId : String) (userId : Option String) (st : St) :
    Except String JsonValue × St :=
  let rres := if jsTruthyOpt userId then (userId, st) else fetchUserEmailFromProfile env st
  let resolvedUser := rres.1
  let st0 := rres.2
  let st1 := recordDispatch
    { Request.base Endpoint.history with
        session_id := some sessionId,
        user_id := if jsTruthyOpt resolvedUser then some resolvedUser else none } st0
  uniformFinish env Endpoint.history env.history st1

/-- `ApiService.healthCheck` (lines 359–380): GET `/health`; no user
identity is involved and none is resolved. -/
def healthCheck (env : Env) (st : St) : Except String JsonValue × St :=
  let st1 := recordDispatch (Request.base Endpoint.health) st
  uniformFinish env Endpoint.health env.health st1

/-- `ApiService.getChatSessions` (lines 383–406): resolve the user when
the argument is falsy; append the `user_id` query parameter only when the
resolved user is truthy. -/
def getChatSessions (env : Env) (userId : Option String) (st : St) :
    Except String JsonValue × St :=
  let rres := if jsTruthyOpt userId then (userId, st) else fetchUserEmailFromProfile env st
  let resolvedUser := rres.1
  let st0 := rres.2
  let st1 := recordDispatch
    { Request.base Endpoint.sessions with
        user_id := if jsTruthyOpt resolvedUser then some resolvedUser else none } st0
  uniformFinish env Endpoint.sessions env.sessions st1

/-- `ApiService.routeLatest` (lines 408–437): resolve the user when the
argument is falsy, derive the path segment from the role classifier, and
append `session_id`/`user_id` query parameters only when truthy. -/
def routeLatest (env : Env) (sessionId : String) (userId : Option String) (st : St) :
    Except String JsonValue × St :=
  let rres := if jsTruthyOpt userId then (userId, st) else fetchUserEmailFromProfile env st
  let resolvedUser := rres.1
  let st0 := rres.2
  let prefixStr := if env.isUndergraduate resolvedUser then "ruh" else "ugc"
  let st1 := recordDispatch
    { Request.base Endpoint.route with
        prefixStr := some prefixStr,
        session_id := if sessionId = "" then none else some sessionId,
        user_id := if jsTruthyOpt resolvedUser then some resolvedUser else none } st0
  uniformFinish env Endpoint.route env.route st1

/-! ### Derived trace descriptions -/

/-- The trace segment produced by awaiting and processing one response:
await, rotation, auth handling, and (when the body is read — `withExtract`
distinguishes `sendFeedback`, which never reads the body) extraction. -/
def procTrace {β : Type} (withExtract : Bool) (e : Endpoint) (o : FetchOutcome β) :
    List Action :=
  match o with
  | FetchOutcome.failure _ => [Action.awaitFailed e]
  | FetchOutcome.success r =>
      [Action.awaited e, Action.rotate e, Action.authHandle e]
        ++ (if withExtract && r.ok then [Action.extract e] else [])

/-- The trace segment produced by `fetchUserEmailFromProfile`: nothing for
a falsy token, otherwise dispatch/await of `/auth/me` plus extraction on a
successful status — and no rotation or auth-handling step. -/
def authMeTrace (tok : Option String) (o : FetchOutcome AuthMeBody) : List Action :=
  if jsTruthyOpt tok then
    [Action.dispatch Endpoint.authMe]
      ++ (match o with
          | FetchOutcome.failure _ => [Action.awaitFailed Endpoint.authMe]
          | FetchOutcome.success r =>
              [Action.awaited Endpoint.authMe]
                ++ (if r.ok then [Action.extract Endpoint.authMe] else []))
  else []

/-- The requests issued by `fetchUserEmailFromProfile`. -/
def authMeReqList (tok : Option String) : List Request :=
  if jsTruthyOpt tok then [Request.base Endpoint.authMe] else []

/-- The chat-upstream endpoints dispatched in a trace (the `/auth/me`
identity lookup is not a chat upstream). -/
def chatDispatches (t : List Action) : List Endpoint :=
  t.filterMap (fun a =>
    match a with
    | Action.dispatch e => if e = Endpoint.authMe then none else some e
    | _ => none)

/-- The value produced for one side by the per-side processing block:
the parsed body on an ok status, otherwise the synthetic placeholder. -/
def sideResult (label : String) (o : FetchOutcome ChatJson) (sessionId : String) : ChatJson :=
  match o with
  | FetchOutcome.failure msg =>
      { response := some (label ++ " request error: " ++ msg),
        conversation_history := some [],
        session_id := some sessionId }
  | FetchOutcome.success r =>
      if r.ok then r.body
      else
        { response := some (label ++ " request failed: " ++ toString r.status),
          conversation_history := some [],
          session_id := some sessionId }

/-- A trace is well processed when every awaited response of an endpoint
other than `/auth/me` is immediately followed by its rotation step and
then its auth-handling step (hence both precede any later extraction). -/
def wellProcessed : List Action → Bool
  | [] => true
  | Action.awaited e :: rest =>
      if e == Endpoint.authMe then
        wellProcessed rest
      else
        match rest with
        | Action.rotate e1 :: Action.authHandle e2 :: rest2 =>
            (e1 == e && e2 == e) && wellProcessed rest2
        | _ => false
  | _ :: rest => wellProcessed rest

/-- No rotation or auth-handling step is ever applied to the `/auth/me`
response. -/
def noAuthMeHandling (t : List Action) : Bool :=
  t.all (fun a =>
    match a with
    | Action.rotate Endpoint.authMe => false
    | Action.authHandle Endpoint.authMe => false
    | _ => true)

/-- Spec-worded helper: the first non-empty string among the optional
candidates, falling back to the default. -/
def firstNonEmpty : List (Option String) → String → String
  | [], d => d
  | none :: rest, d => firstNonEmpty rest d
  | some s :: rest, d => if s = "" then firstNonEmpty rest d else s

/-! ### Component lemmas -/

theorem updateAccessToken_trace {β : Type} (r : HttpResp β) (st : St) :
    (updateAccessTokenFromResponse r st).trace = st.trace := by
  unfold updateAccessTokenFromResponse
  cases r.rotationToken with
  | none => rfl
  | some t => by_cases h : t = "" <;> simp [h]

theorem updateAccessToken_events {β : Type} (r : HttpResp β) (st : St) :
    (updateAccessTokenFromResponse r st).events = st.events := by
  unfold updateAccessTokenFromResponse
  cases r.rotationToken with
  | none => rfl
  | some t => by_cases h : t = "" <;> simp [h]

theorem updateAccessToken_requests {β : Type} (r : HttpResp β) (st : St) :
    (updateAccessTokenFromResponse r st).requests = st.requests := by
  unfold updateAccessTokenFromResponse
  cases r.rotationToken with
  | none => rfl
  | some t => by_cases h : t = "" <;> simp [h]

theorem handleAuthError_trace {β : Type} (env : Env) (r : HttpResp β) (st : St) :
    (handleAuthError env r st).trace = st.trace := by
  unfold handleAuthError
  by_cases h : r.status = 401 ∨ r.status = 403 <;>
    simp [h] <;> cases env.removeItemThrows <;> cases env.customEventThrows <;> simp

theorem handleAuthError_requests {β : Type} (env : Env) (r : HttpResp β) (st : St) :
    (handleAuthError env r st).requests = st.requests := by
  unfold handleAuthError
  by_cases h : r.status = 401 ∨ r.status = 403 <;>
    simp [h] <;> cases env.removeItemThrows <;> cases env.customEventThrows <;> simp

theorem processChatSide_fst (env : Env) (e : Endpoint) (label : String)
    (o : FetchOutcome ChatJson) (sessionId : String) (st : St) :
    (processChatSide env e label o sessionId st).1 = sideResult label o sessionId := by
  unfold processChatSide sideResult
  cases o with
  | failure msg => rfl
  | success r => cases h : r.ok <;> simp [h]

theorem processChatSide_trace (env : Env) (e : Endpoint) (label : String)
    (o : FetchOutcome ChatJson) (sessionId : String) (st : St) :
    (processChatSide env e label o sessionId st).2.trace
      = st.trace ++ procTrace true e o := by
  unfold processChatSide procTrace
  cases o with
  | failure msg => rfl
  | success r =>
      cases h : r.ok <;>
        simp [h, handleAuthError_trace, updateAccessToken_trace]

theorem processChatSide_requests (env : Env) (e : Endpoint) (label : String)
    (o : FetchOutcome ChatJson) (sessionId : String) (st : St) :
    (processChatSide env e label o sessionId st).2.requests = st.requests := by
  unfold processChatSide
  cases o with
  | failure msg => rfl
  | success r =>
      cases h : r.ok <;>
        simp [h, handleAuthError_requests, updateAccessToken_requests]

theorem fetchUserEmail_trace (env : Env) (st : St) :
    (fetchUserEmailFromProfile env st).2.trace
      = st.trace ++ authMeTrace st.authToken env.authMe := by
  unfold fetchUserEmailFromProfile authMeTrace getAccessToken recordDispatch
  by_cases h : jsTruthyOpt st.authToken
  · cases env.authMe with
    | failure msg => simp [h, Request.base]
    | success r => cases hok : r.ok <;> simp [h, hok, Request.base]
  · simp [h]

theorem fetchUserEmail_requests (env : Env) (st : St) :
    (fetchUserEmailFromProfile env st).2.requests
      = st.requests ++ authMeReqList st.authToken := by
  unfold fetchUserEmailFromProfile authMeReqList getAccessToken recordDispatch
  by_cases h : jsTruthyOpt st.authToken
  · cases env.authMe with
    | failure msg => simp [h]
    | success r => cases hok : r.ok <;> simp [h, hok]
  · simp [h]

theorem fetchUserEmail_authToken (env : Env) (st : St) :
    (fetchUserEmailFromProfile env st).2.authToken = st.authToken := by
  unfold fetchUserEmailFromProfile getAccessToken recordDispatch
  by_cases h : jsTruthyOpt st.authToken
  · cases env.authMe with
    | failure msg => simp [h]
    | success r => cases hok : r.ok <;> simp [h, hok]
  · simp [h]

theorem fetchUserEmail_events (env : Env) (st : St) :
    (fetchUserEmailFromProfile env st).2.events = st.events := by
  unfold fetchUserEmailFromProfile getAccessToken recordDispatch
  by_cases h : jsTruthyOpt st.authToken
  · cases env.authMe with
    | failure msg => simp [h]
    | success r => cases hok : r.ok <;> simp [h, hok]
  · simp [h]

theorem uniformFinish_trace (env : Env) (e : Endpoint) (o : FetchOutcome JsonValue) (st : St) :
    (uniformFinish env e o st).2.trace = st.trace ++ procTrace true e o := by
  unfold uniformFinish procTrace
  cases o with
  | failure msg => rfl
  | success r =>
      cases h : r.ok <;>
        simp [h, handleAuthError_trace, updateAccessToken_trace]

theorem uniformFinish_requests (env : Env) (e : Endpoint) (o : FetchOutcome JsonValue) (st : St) :
    (uniformFinish env e o st).2.requests = st.requests := by
  unfold uniformFinish
  cases o with
  | failure msg => rfl
  | success r =>
      cases h : r.ok <;>
        simp [h, handleAuthError_requests, updateAccessToken_requests]

/-! ### Trace decomposition of the operations -/

theorem sendMessage_trace_ug (env : Env) (message sessionId : String)
    (guidanceFilter : Option String) (onlyUseRuh : Option Bool) (st : St)
    (hUG : env.isUndergraduate (fetchUserEmailFromProfile env st).1 = true) :
    (sendMessage env message sessionId guidanceFilter onlyUseRuh st).2.trace
      = st.trace ++ authMeTrace st.authToken env.authMe
        ++ [Action.dispatch Endpoint.ruhChat] ++ procTrace true Endpoint.ruhChat env.ruh := by
  unfold sendMessage recordDispatch
  simp only [hUG, if_true]
  cases env.ruh with
  | failure msg => simp [fetchUserEmail_trace, procTrace, chatRequest, Request.base]
  | success r =>
      cases h : r.ok <;>
        simp [h, fetchUserEmail_trace, procTrace, chatRequest, Request.base,
          handleAuthError_trace, updateAccessToken_trace]

theorem sendMessage_trace_dual (env : Env) (message sessionId : String)
    (guidanceFilter : Option String) (st : St)
    (hUG : env.isUndergraduate (fetchUserEmailFromProfile env st).1 = false) :
    (sendMessage env message sessionId guidanceFilter none st).2.trace
      = st.trace ++ authMeTrace st.authToken env.authMe
        ++ [Action.dispatch Endpoint.ruhChat, Action.dispatch Endpoint.ugcChat]
        ++ procTrace true Endpoint.ruhChat env.ruh
        ++ procTrace true Endpoint.ugcChat env.ugc := by
  unfold sendMessage recordDispatch
  simp only [hUG]
  simp [processChatSide_trace, fetchUserEmail_trace, chatRequest, Request.base]

theorem sendMessage_trace_ruhOnly (env : Env) (message sessionId : String)
    (guidanceFilter : Option String) (st : St)
    (hUG : env.isUndergraduate (fetchUserEmailFromProfile env st).1 = false) :
    (sendMessage env message sessionId guidanceFilter (some true) st).2.trace
      = st.trace ++ authMeTrace st.authToken env.authMe
        ++ [Action.dispatch Endpoint.ruhChat] ++ procTrace true Endpoint.ruhChat env.ruh := by
  unfold sendMessage recordDispatch
  simp only [hUG]
  simp [processChatSide_trace, fetchUserEmail_trace, chatRequest, Request.base]

theorem sendMessage_trace_ugcOnly (env : Env) (message sessionId : String)
    (guidanceFilter : Option String) (st : St)
    (hUG : env.isUndergraduate (fetchUserEmailFromProfile env st).1 = false) :
    (sendMessage env message sessionId guidanceFilter (some false) st).2.trace
      = st.trace ++ authMeTrace st.authToken env.authMe
        ++ [Action.dispatch Endpoint.ugcChat] ++ procTrace true Endpoint.ugcChat env.ugc := by
  unfold sendMessage recordDispatch
  simp only [hUG]
  simp [processChatSide_trace, fetchUserEmail_trace, chatRequest, Request.base]

/-! ### Well-processedness of traces -/

theorem wellProcessed_cons_dispatch (e : Endpoint) (t : List Action) :
    wellProcessed (Action.dispatch e :: t) = wellProcessed t := by
  rw [wellProcessed.eq_def]

theorem wellProcessed_cons_extract (e : Endpoint) (t : List Action) :
    wellProcessed (Action.extract e :: t) = wellProcessed t := by
  rw [wellProcessed.eq_def]

theorem wellProcessed_cons_awaitFailed (e : Endpoint) (t : List Action) :
    wellProcessed (Action.awaitFailed e :: t) = wellProcessed t := by
  rw [wellProcessed.eq_def]

theorem wellProcessed_awaited_authMe (t : List Action) :
    wellProcessed (Action.awaited Endpoint.authMe :: t) = wellProcessed t := by
  rw [wellProcessed.eq_def]
  simp

theorem wellProcessed_block (e : Endpoint) (t : List Action)
    (he : (e == Endpoint.authMe) = false) :
    wellProcessed (Action.awaited e :: Action.rotate e :: Action.authHandle e :: t)
      = wellProcessed t := by
  rw [wellProcessed.eq_def]
  simp [he]

theorem wellProcessed_authMeTrace (tok : Option String) (o : FetchOutcome AuthMeBody)
    (t : List Action) :
    wellProcessed (authMeTrace tok o ++ t) = wellProcessed t := by
  unfold authMeTrace
  by_cases h : jsTruthyOpt tok
  · cases o with
    | failure msg =>
        simp [h, wellProcessed_cons_dispatch, wellProcessed_cons_awaitFailed]
    | success r =>
        cases hok : r.ok <;>
          simp [h, hok, wellProcessed_cons_dispatch, wellProcessed_awaited_authMe,
            wellProcessed_cons_extract]
  · simp [h]

theorem wellProcessed_procTrace {β : Type} (b : Bool) (e : Endpoint)
    (o : FetchOutcome β) (t : List Action) (he : (e == Endpoint.authMe) = false) :
    wellProcessed (procTrace b e o ++ t) = wellProcessed t := by
  unfold procTrace
  cases o with
  | failure msg => simp [wellProcessed_cons_awaitFailed]
  | success r =>
      cases hok : b && r.ok <;>
        simp [hok, wellProcessed_block e _ he, wellProcessed_cons_extract]

theorem noAuthMeHandling_append (a b : List Action) :
    noAuthMeHandling (a ++ b) = (noAuthMeHandling a && noAuthMeHandling b) := by
  simp [noAuthMeHandling, List.all_append]

theorem noAuthMeHandling_authMeTrace (tok : Option String) (o : FetchOutcome AuthMeBody) :
    noAuthMeHandling (authMeTrace tok o) = true := by
  unfold authMeTrace
  by_cases h : jsTruthyOpt tok
  · cases o with
    | failure msg => simp [h, noAuthMeHandling]
    | success r => cases hok : r.ok <;> simp [h, hok, noAuthMeHandling]
  · simp [h, noAuthMeHandling]

theorem noAuthMeHandling_procTrace {β : Type} (b : Bool) (e : Endpoint)
    (o : FetchOutcome β) (he : e ≠ Endpoint.authMe) :
    noAuthMeHandling (procTrace b e o) = true := by
  unfold procTrace
  cases o with
  | failure msg => simp [noAuthMeHandling]
  | success r =>
      cases hok : b && r.ok <;> cases e <;> simp_all [noAuthMeHandling]

theorem noAuthMeHandling_dispatch (e : Endpoint) :
    noAuthMeHandling [Action.dispatch e] = true := by
  simp [noAuthMeHandling]

theorem noAuthMeHandling_nil : noAuthMeHandling [] = true := rfl

theorem noAuthMeHandling_cons_dispatch (e : Endpoint) (t : List Action) :
    noAuthMeHandling (Action.dispatch e :: t) = noAuthMeHandling t := by
  simp [noAuthMeHandling]

/-- Every action in a processing segment concerns the segment's endpoint,
and none of them is a request dispatch. -/
theorem procTrace_mem {β : Type} (b : Bool) (e : Endpoint) (o : FetchOutcome β) :
    ∀ a ∈ procTrace b e o, Action.endpointOf a = e ∧ Action.isDispatch a = false := by
  intro a ha
  cases o with
  | failure msg =>
      simp [procTrace] at ha
      subst ha
      exact ⟨rfl, rfl⟩
  | success r =>
      by_cases hok : (b && r.ok) = true
      · simp [procTrace, hok] at ha
        rcases ha with h | h | h | h <;> subst h <;> exact ⟨rfl, rfl⟩
      · simp [procTrace, hok] at ha
        rcases ha with h | h | h <;> subst h <;> exact ⟨rfl, rfl⟩

/-! ### Result projections of `sendMessage` -/

theorem sendMessage_fst_dual (env : Env) (message sessionId : String)
    (guidanceFilter : Option String) (st : St)
    (hUG : env.isUndergraduate (fetchUserEmailFromProfile env st).1 = false) :
    (sendMessage env message sessionId guidanceFilter none st).1
      = Except.ok (combineResponses (sideResult "RUH" env.ruh sessionId)
          (sideResult "UGC" env.ugc sessionId) sessionId) := by
  unfold sendMessage
  simp only [hUG]
  simp [processChatSide_fst]

theorem sendMessage_fst_ruhOnly (env : Env) (message sessionId : String)
    (guidanceFilter : Option String) (st : St)
    (hUG : env.isUndergraduate (fetchUserEmailFromProfile env st).1 = false) :
    (sendMessage env message sessionId guidanceFilter (some true) st).1
      = Except.ok (sideResult "RUH" env.ruh sessionId) := by
  unfold sendMessage
  simp only [hUG]
  simp [processChatSide_fst]

theorem sendMessage_fst_ugcOnly (env : Env) (message sessionId : String)
    (guidanceFilter : Option String) (st : St)
    (hUG : env.isUndergraduate (fetchUserEmailFromProfile env st).1 = false) :
    (sendMessage env message sessionId guidanceFilter (some false) st).1
      = Except.ok (sideResult "UGC" env.ugc sessionId) := by
  unfold sendMessage
  simp only [hUG]
  simp [processChatSide_fst]

theorem sendMessage_fst_ug (env : Env) (message sessionId : String)
    (guidanceFilter : Option String) (onlyUseRuh : Option Bool) (st : St)
    (hUG : env.isUndergraduate (fetchUserEmailFromProfile env st).1 = true)
    (r : HttpResp ChatJson) (hr : env.ruh = FetchOutcome.success r) :
    (sendMessage env message sessionId guidanceFilter onlyUseRuh st).1
      = if r.ok then Except.ok r.body
        else Except.error ("HTTP error! status: " ++ toString r.status) := by
  unfold sendMessage
  simp only [hUG, if_true, hr]
  cases hok : r.ok <;> simp [hok]

theorem sendMessage_fst_ug_netError (env : Env) (message sessionId : String)
    (guidanceFilter : Option String) (onlyUseRuh : Option Bool) (st : St)
    (hUG : env.isUndergraduate (fetchUserEmailFromProfile env st).1 = true)
    (msg : String) (hr : env.ruh = FetchOutcome.failure msg) :
    (sendMessage env message sessionId guidanceFilter onlyUseRuh st).1
      = Except.error msg := by
  unfold sendMessage
  simp only [hUG, if_true, hr]

/-! ### Dispatched chat endpoints -/

theorem chatDispatches_append (a b : List Action) :
    chatDispatches (a ++ b) = chatDispatches a ++ chatDispatches b := by
  simp [chatDispatches, List.filterMap_append]

theorem chatDispatches_authMeTrace (tok : Option String) (o : FetchOutcome AuthMeBody) :
    chatDispatches (authMeTrace tok o) = [] := by
  unfold authMeTrace chatDispatches
  by_cases h : jsTruthyOpt tok
  · cases o with
    | failure msg => simp [h]
    | success r => cases hok : r.ok <;> simp [h, hok]
  · simp [h]

theorem chatDispatches_procTrace {β : Type} (b : Bool) (e : Endpoint) (o : FetchOutcome β) :
    chatDispatches (procTrace b e o) = [] := by
  unfold procTrace chatDispatches
  cases o with
  | failure msg => simp
  | success r => cases hok : b && r.ok <;> simp [hok]

theorem chatDispatches_cons_ruh (t : List Action) :
    chatDispatches (Action.dispatch Endpoint.ruhChat :: t)
      = Endpoint.ruhChat :: chatDispatches t := by
  simp [chatDispatches]

theorem chatDispatches_cons_ugc (t : List Action) :
    chatDispatches (Action.dispatch Endpoint.ugcChat :: t)
      = Endpoint.ugcChat :: chatDispatches t := by
  simp [chatDispatches]

/-! ### The claims -/

/-- C1: for a non-undergraduate identity, `sendMessage` selects the chat
upstreams by the tri-state `onlyUseRuh` flag — `undefined` calls both RUH
and UGC, `true` only RUH, `false` only UGC — and the unselected side
contributes nothing to the result (the returned payload is unchanged under
arbitrary replacement of the unselected side's outcome). -/
theorem claim1_tristate_endpoint_selection
    (env : Env) (st : St) (message sessionId : String) (guidanceFilter : Option String)
    (hUG : env.isUndergraduate (fetchUserEmailFromProfile env st).1 = false) :
    chatDispatches ((sendMessage env message sessionId guidanceFilter none st).2.trace)
        = chatDispatches st.trace ++ [Endpoint.ruhChat, Endpoint.ugcChat]
    ∧ chatDispatches ((sendMessage env message sessionId guidanceFilter (some true) st).2.trace)
        = chatDispatches st.trace ++ [Endpoint.ruhChat]
    ∧ chatDispatches ((sendMessage env message sessionId guidanceFilter (some false) st).2.trace)
        = chatDispatches st.trace ++ [Endpoint.ugcChat]
    ∧ (∀ o : FetchOutcome ChatJson,
        (sendMessage { env with ugc := o } message sessionId guidanceFilter (some true) st).1
          = (sendMessage env message sessionId guidanceFilter (some true) st).1)
    ∧ (∀ o : FetchOutcome ChatJson,
        (sendMessage { env with ruh := o } message sessionId guidanceFilter (some false) st).1
          = (sendMessage env message sessionId guidanceFilter (some false) st).1) := by
  refine ⟨?_, ?_, ?_, ?_, ?_⟩
  · rw [sendMessage_trace_dual env message sessionId guidanceFilter st hUG]
    simp [chatDispatches_append, chatDispatches_authMeTrace, chatDispatches_procTrace,
      chatDispatches_cons_ruh, chatDispatches_cons_ugc]
  · rw [sendMessage_trace_ruhOnly env message sessionId guidanceFilter st hUG]
    simp [chatDispatches_append, chatDispatches_authMeTrace, chatDispatches_procTrace,
      chatDispatches_cons_ruh, chatDispatches_cons_ugc]
  · rw [sendMessage_trace_ugcOnly env message sessionId guidanceFilter st hUG]
    simp [chatDispatches_append, chatDispatches_authMeTrace, chatDispatches_procTrace,
      chatDispatches_cons_ruh, chatDispatches_cons_ugc]
  · intro o
    rw [sendMessage_fst_ruhOnly { env with ugc := o } message sessionId guidanceFilter st hUG,
      sendMessage_fst_ruhOnly env message sessionId guidanceFilter st hUG]
  · intro o
    rw [sendMessage_fst_ugcOnly { env with ruh := o } message sessionId guidanceFilter st hUG,
      sendMessage_fst_ugcOnly env message sessionId guidanceFilter st hUG]

/-- C2: for an identity classified undergraduate, `sendMessage` issues
exactly one chat-upstream call, to the RUH endpoint, for every value of
`onlyUseRuh`; a non-success HTTP status is thrown as an error carrying the
status code, and a success returns the parsed body verbatim. -/
theorem claim2_undergraduate_ruh_only
    (env : Env) (st : St) (message sessionId : String) (guidanceFilter : Option String)
    (onlyUseRuh : Option Bool)
    (hUG : env.isUndergraduate (fetchUserEmailFromProfile env st).1 = true) :
    chatDispatches ((sendMessage env message sessionId guidanceFilter onlyUseRuh st).2.trace)
        = chatDispatches st.trace ++ [Endpoint.ruhChat]
    ∧ (∀ r : HttpResp ChatJson, env.ruh = FetchOutcome.success r →
        (r.ok = false →
          (sendMessage env message sessionId guidanceFilter onlyUseRuh st).1
            = Except.error ("HTTP error! status: " ++ toString r.status))
        ∧ (r.ok = true →
          (sendMessage env message sessionId guidanceFilter onlyUseRuh st).1
            = Except.ok r.body)) := by
  constructor
  · rw [sendMessage_trace_ug env message sessionId guidanceFilter onlyUseRuh st hUG]
    simp [chatDispatches_append, chatDispatches_authMeTrace, chatDispatches_procTrace,
      chatDispatches_cons_ruh, chatDispatches_cons_ugc]
  · intro r hr
    constructor
    · intro hok
      rw [sendMessage_fst_ug env message sessionId guidanceFilter onlyUseRuh st hUG r hr]
      simp [hok]
    · intro hok
      rw [sendMessage_fst_ug env message sessionId guidanceFilter onlyUseRuh st hUG r hr]
      simp [hok]

/-- C7: when a non-undergraduate selects exactly one side, the result is
that side's value wrapped in a normal return (never a throw): the
placeholder when the sole call failed, and the parsed body unmodified —
including its own `session_id` — when it succeeded. -/
theorem claim7_single_side_returned_as_is
    (env : Env) (st : St) (message sessionId : String) (guidanceFilter : Option String)
    (hUG : env.isUndergraduate (fetchUserEmailFromProfile env st).1 = false) :
    (sendMessage env message sessionId guidanceFilter (some true) st).1
        = Except.ok (sideResult "RUH" env.ruh sessionId)
    ∧ (sendMessage env message sessionId guidanceFilter (some false) st).1
        = Except.ok (sideResult "UGC" env.ugc sessionId)
    ∧ (∀ r : HttpResp ChatJson, env.ruh = FetchOutcome.success r → r.ok = true →
        (sendMessage env message sessionId guidanceFilter (some true) st).1
          = Except.ok r.body)
    ∧ (∀ r : HttpResp ChatJson, env.ugc = FetchOutcome.success r → r.ok = true →
        (sendMessage env message sessionId guidanceFilter (some false) st).1
          = Except.ok r.body) := by
  refine ⟨sendMessage_fst_ruhOnly env message sessionId guidanceFilter st hUG,
    sendMessage_fst_ugcOnly env message sessionId guidanceFilter st hUG, ?_, ?_⟩
  · intro r hr hok
    rw [sendMessage_fst_ruhOnly env message sessionId guidanceFilter st hUG]
    simp [sideResult, hr, hok]
  · intro r hr hok
    rw [sendMessage_fst_ugcOnly env message sessionId guidanceFilter st hUG]
    simp [sideResult, hr, hok]

/-- `a || (b || ... || d)` chains on nullable strings compute the first
non-empty candidate. -/
theorem jsOr_cons (o : Option String) (rest : List (Option String)) (d : String) :
    jsOr o (firstNonEmpty rest d) = firstNonEmpty (o :: rest) d := by
  cases o <;> simp [jsOr, firstNonEmpty]

/-- A string with a non-empty prefix glued on is non-empty. -/
theorem prepend_ne_empty (p x : String) (hp : p.length ≠ 0) : p ++ x ≠ "" := by
  intro h
  have h2 := congrArg String.length h
  simp [String.length_append] at h2
  exact hp h2.1

/-- C3: in the combined (non-undergraduate, `onlyUseRuh` undefined) path,
the returned payload is the combination of the two side results, whose
`response` concatenates the RUH text then the UGC text under the `[RUH]`
and `[UGC]` headers, whose `conversation_history` is the RUH history
followed by the UGC history, and whose `session_id` is the first
non-empty of the RUH `session_id`, the UGC `session_id` and the original
`sessionId` argument. -/
theorem claim3_combined_response_shape
    (env : Env) (st : St) (message sessionId : String) (guidanceFilter : Option String)
    (rt ut : String) (rh uh : List ChatMessage)
    (hUG : env.isUndergraduate (fetchUserEmailFromProfile env st).1 = false)
    (hrt : (sideResult "RUH" env.ruh sessionId).response = some rt) (hrtne : rt ≠ "")
    (hrh : (sideResult "RUH" env.ruh sessionId).conversation_history = some rh)
    (hut : (sideResult "UGC" env.ugc sessionId).response = some ut) (hutne : ut ≠ "")
    (huh : (sideResult "UGC" env.ugc sessionId).conversation_history = some uh) :
    (sendMessage env message sessionId guidanceFilter none st).1
        = Except.ok (combineResponses (sideResult "RUH" env.ruh sessionId)
            (sideResult "UGC" env.ugc sessionId) sessionId)
    ∧ (combineResponses (sideResult "RUH" env.ruh sessionId)
          (sideResult "UGC" env.ugc sessionId) sessionId).response
        = some ("[RUH]\n" ++ rt ++ "\n\n[UGC]\n" ++ ut)
    ∧ (combineResponses (sideResult "RUH" env.ruh sessionId)
          (sideResult "UGC" env.ugc sessionId) sessionId).conversation_history
        = some (rh ++ uh)
    ∧ (combineResponses (sideResult "RUH" env.ruh sessionId)
          (sideResult "UGC" env.ugc sessionId) sessionId).session_id
        = some (firstNonEmpty [(sideResult "RUH" env.ruh sessionId).session_id,
            (sideResult "UGC" env.ugc sessionId).session_id] sessionId) := by
  refine ⟨sendMessage_fst_dual env message sessionId guidanceFilter st hUG, ?_, ?_, ?_⟩
  · simp [combineResponses, hrt, hut, jsOr, hrtne, hutne]
  · simp [combineResponses, hrh, huh, jsOrList]
  · have h1 : jsOr (sideResult "UGC" env.ugc sessionId).session_id sessionId
        = firstNonEmpty [(sideResult "UGC" env.ugc sessionId).session_id] sessionId :=
      jsOr_cons _ [] sessionId
    simp only [combineResponses, h1, jsOr_cons]

/-- C4: in the non-undergraduate path, a failed upstream call — non-success
status or thrown network error — yields the synthetic placeholder
`{response, conversation_history: [], session_id: sessionId}` instead of
aborting, and the placeholder participates in the combination like a real
response (e.g. a failed RUH with status `s` combined with a successful UGC
gives `[RUH]` followed by the failure text with `s`, then `[UGC]` and the
UGC text). -/
theorem claim4_per_side_failure_placeholders
    (env : Env) (st : St) (message sessionId : String) (guidanceFilter : Option String)
    (label m : String) (r0 : HttpResp ChatJson) :
    sideResult label (FetchOutcome.failure m) sessionId
        = { response := some (label ++ " request error: " ++ m),
            conversation_history := some [], session_id := some sessionId }
    ∧ (r0.ok = false →
        sideResult label (FetchOutcome.success r0) sessionId
          = { response := some (label ++ " request failed: " ++ toString r0.status),
              conversation_history := some [], session_id := some sessionId })
    ∧ (env.isUndergraduate (fetchUserEmailFromProfile env st).1 = false →
        ∀ (r u : HttpResp ChatJson), env.ruh = FetchOutcome.success r → r.ok = false →
          env.ugc = FetchOutcome.success u → u.ok = true →
          (sendMessage env message sessionId guidanceFilter none st).1
              = Except.ok (combineResponses
                  { response := some ("RUH request failed: " ++ toString r.status),
                    conversation_history := some [], session_id := some sessionId }
                  u.body sessionId)
          ∧ (combineResponses
                { response := some ("RUH request failed: " ++ toString r.status),
                  conversation_history := some [], session_id := some sessionId }
                u.body sessionId).response
              = some ("[RUH]\nRUH request failed: " ++ toString r.status
                  ++ "\n\n[UGC]\n" ++ jsOr u.body.response "(no response)")) := by
  refine ⟨rfl, ?_, ?_⟩
  · intro hok
    simp [sideResult, hok]
  · intro hUG r u hr hok hu huok
    constructor
    · rw [sendMessage_fst_dual env message sessionId guidanceFilter st hUG]
      simp [sideResult, hr, hok, hu, huok]
    · have hne : ("RUH request failed: " ++ toString r.status) ≠ "" :=
        prepend_ne_empty "RUH request failed: " (toString r.status) (by decide)
      simp [combineResponses, jsOr, hne]
      rfl

/-- C5: any response with status 401 or 403, after passing through the
rotation-then-auth-handling pipeline, leaves the stored token cleared
(when `removeItem` does not throw — even if the same response's rotation
header installed a new token first), always appends exactly one broadcast
`auth:logout` event carrying the response status (also when clearing
threw), and falls back to the legacy event constructor — still carrying
the status — when the `CustomEvent` constructor throws. -/
theorem claim5_auth_failure_clears_token_and_broadcasts {β : Type}
    (env : Env) (r : HttpResp β) (st : St)
    (hs : r.status = 401 ∨ r.status = 403) :
    (env.removeItemThrows = false →
      (handleAuthError env r (updateAccessTokenFromResponse r st)).authToken = none)
    ∧ (handleAuthError env r (updateAccessTokenFromResponse r st)).events
        = st.events ++ [if env.customEventThrows
            then AuthEvent.legacyEvent "auth:logout" r.status
            else AuthEvent.customEvent "auth:logout" r.status]
    ∧ AuthEvent.statusOf (if env.customEventThrows
          then AuthEvent.legacyEvent "auth:logout" r.status
          else AuthEvent.customEvent "auth:logout" r.status) = r.status
    ∧ AuthEvent.nameOf (if env.customEventThrows
          then AuthEvent.legacyEvent "auth:logout" r.status
          else AuthEvent.customEvent "auth:logout" r.status) = "auth:logout" := by
  refine ⟨?_, ?_, ?_, ?_⟩
  · intro hri
    unfold handleAuthError
    simp [hs, hri]
    cases h : env.customEventThrows <;> simp
  · unfold handleAuthError
    simp [hs]
    cases hri : env.removeItemThrows <;> cases h : env.customEventThrows <;>
      simp [updateAccessToken_events]
  · cases h : env.customEventThrows <;> simp [AuthEvent.statusOf]
  · cases h : env.customEventThrows <;> simp [AuthEvent.nameOf]

/-- C6: in the dual-endpoint path, the trace shows both chat requests
dispatched back-to-back before either response is processed, followed by
the whole RUH processing segment and only then the whole UGC processing
segment: every action of each segment concerns only its own endpoint and
dispatches nothing. -/
theorem claim6_dispatch_concurrent_processing_sequential
    (env : Env) (st : St) (message sessionId : String) (guidanceFilter : Option String)
    (hUG : env.isUndergraduate (fetchUserEmailFromProfile env st).1 = false) :
    (sendMessage env message sessionId guidanceFilter none st).2.trace
        = st.trace ++ authMeTrace st.authToken env.authMe
          ++ [Action.dispatch Endpoint.ruhChat, Action.dispatch Endpoint.ugcChat]
          ++ procTrace true Endpoint.ruhChat env.ruh
          ++ procTrace true Endpoint.ugcChat env.ugc
    ∧ (∀ a ∈ procTrace true Endpoint.ruhChat env.ruh,
        Action.endpointOf a = Endpoint.ruhChat ∧ Action.isDispatch a = false)
    ∧ (∀ a ∈ procTrace true Endpoint.ugcChat env.ugc,
        Action.endpointOf a = Endpoint.ugcChat ∧ Action.isDispatch a = false) :=
  ⟨sendMessage_trace_dual env message sessionId guidanceFilter st hUG,
    procTrace_mem true Endpoint.ruhChat env.ruh,
    procTrace_mem true Endpoint.ugcChat env.ugc⟩

/-- C10: in the combined branch, a missing or empty side text is replaced
by the literal `(no response)` under that side's label, so the combined
text is then never the exact concatenation of the raw texts. -/
theorem claim10_no_response_substitution
    (r u : ChatJson) (sessionId : String) :
    (∀ ut : String, (r.response = none ∨ r.response = some "") →
      u.response = some ut → ut ≠ "" →
      (combineResponses r u sessionId).response
          = some ("[RUH]\n(no response)\n\n[UGC]\n" ++ ut)
      ∧ (combineResponses r u sessionId).response
          ≠ some ("[RUH]\n" ++ "" ++ ("\n\n[UGC]\n" ++ ut)))
    ∧ (∀ rt : String, (u.response = none ∨ u.response = some "") →
      r.response = some rt → rt ≠ "" →
      (combineResponses r u sessionId).response
          = some ("[RUH]\n" ++ rt ++ "\n\n[UGC]\n(no response)")
      ∧ (combineResponses r u sessionId).response
          ≠ some ("[RUH]\n" ++ rt ++ ("\n\n[UGC]\n" ++ ""))) := by
  constructor
  · intro ut hr hu hutne
    have hre : jsOr r.response "(no response)" = "(no response)" := by
      rcases hr with h | h <;> simp [jsOr, h]
    have hue : jsOr u.response "(no response)" = ut := by
      simp [jsOr, hu, hutne]
    constructor
    · simp [combineResponses, hre, hue]
    · simp only [combineResponses, hre, hue]
      intro hcontra
      simp only [Option.some.injEq] at hcontra
      have h2 := congrArg String.length hcontra
      simp only [String.length_append] at h2
      rw [(by decide : "[RUH]\n".length = 6),
        (by decide : "(no response)".length = 13),
        (by decide : "\n\n[UGC]\n".length = 8),
        (by decide : "".length = 0)] at h2
      omega
  · intro rt hu hr hrtne
    have hre : jsOr r.response "(no response)" = rt := by
      simp [jsOr, hr, hrtne]
    have hue : jsOr u.response "(no response)" = "(no response)" := by
      rcases hu with h | h <;> simp [jsOr, h]
    constructor
    · simp [combineResponses, hre, hue, String.append_assoc]
    · simp only [combineResponses, hre, hue]
      intro hcontra
      simp only [Option.some.injEq] at hcontra
      have h2 := congrArg String.length hcontra
      simp only [String.length_append] at h2
      rw [(by decide : "(no response)".length = 13),
        (by decide : "\n\n[UGC]\n".length = 8),
        (by decide : "".length = 0)] at h2
      omega

/-! ### Traces and request logs of the uniform forwarding operations -/

theorem createNewChatSession_trace (env : Env) (userId : Option String) (st : St) :
    (createNewChatSession env userId st).2.trace
      = st.trace ++ (if jsTruthyOpt userId then [] else authMeTrace st.authToken env.authMe)
        ++ [Action.dispatch Endpoint.chatSession]
        ++ procTrace true Endpoint.chatSession env.chatSession := by
  unfold createNewChatSession recordDispatch
  by_cases h : jsTruthyOpt userId <;>
    simp [h, uniformFinish_trace, fetchUserEmail_trace, Request.base]

theorem createNewChatSession_requests_noUser (env : Env) (st : St) :
    (createNewChatSession env none st).2.requests
      = st.requests ++ authMeReqList st.authToken
        ++ [{ Request.base Endpoint.chatSession with
              user_id := some (fetchUserEmailFromProfile env st).1 }] := by
  unfold createNewChatSession recordDispatch
  simp [jsTruthyOpt, uniformFinish_requests, fetchUserEmail_requests]

theorem sendFeedback_trace (env : Env) (sessionId : String) (messageIndex : Nat)
    (feedbackType : String) (userId : Option String) (st : St) :
    (sendFeedback env sessionId messageIndex feedbackType userId st).2.trace
      = st.trace ++ [Action.dispatch Endpoint.feedback]
        ++ procTrace false Endpoint.feedback env.feedback := by
  unfold sendFeedback recordDispatch procTrace
  cases env.feedback with
  | failure msg => simp [Request.base]
  | success r =>
      cases h : r.ok <;>
        simp [h, handleAuthError_trace, updateAccessToken_trace, Request.base]

theorem sendFeedback_requests (env : Env) (sessionId : String) (messageIndex : Nat)
    (feedbackType : String) (userId : Option String) (st : St) :
    (sendFeedback env sessionId messageIndex feedbackType userId st).2.requests
      = st.requests ++ [{ Request.base Endpoint.feedback with
            session_id := some sessionId,
            message_index := some messageIndex,
            feedback_type := some feedbackType,
            user_id := match userId with
              | some u => some (some u)
              | none => none }] := by
  unfold sendFeedback recordDispatch
  cases env.feedback with
  | failure msg => simp
  | success r =>
      cases h : r.ok <;>
        simp [h, handleAuthError_requests, updateAccessToken_requests]

theorem getChatHistory_trace (env : Env) (sessionId : String) (userId : Option String)
    (st : St) :
    (getChatHistory env sessionId userId st).2.trace
      = st.trace ++ (if jsTruthyOpt userId then [] else authMeTrace st.authToken env.authMe)
        ++ [Action.dispatch Endpoint.history]
        ++ procTrace true Endpoint.history env.history := by
  unfold getChatHistory recordDispatch
  by_cases h : jsTruthyOpt userId <;>
    simp [h, uniformFinish_trace, fetchUserEmail_trace, Request.base]

theorem getChatHistory_requests_noUser (env : Env) (sessionId : String) (st : St) :
    (getChatHistory env sessionId none st).2.requests
      = st.requests ++ authMeReqList st.authToken
        ++ [{ Request.base Endpoint.history with
              session_id := some sessionId,
              user_id := if jsTruthyOpt (fetchUserEmailFromProfile env st).1
                then some (fetchUserEmailFromProfile env st).1 else none }] := by
  unfold getChatHistory recordDispatch
  simp [jsTruthyOpt, uniformFinish_requests, fetchUserEmail_requests]

theorem healthCheck_trace (env : Env) (st : St) :
    (healthCheck env st).2.trace
      = st.trace ++ [Action.dispatch Endpoint.health]
        ++ procTrace true Endpoint.health env.health := by
  unfold healthCheck recordDispatch
  simp [uniformFinish_trace, Request.base]

theorem healthCheck_requests (env : Env) (st : St) :
    (healthCheck env st).2.requests = st.requests ++ [Request.base Endpoint.health] := by
  unfold healthCheck recordDispatch
  simp [uniformFinish_requests]

theorem getChatSessions_trace (env : Env) (userId : Option String) (st : St) :
    (getChatSessions env userId st).2.trace
      = st.trace ++ (if jsTruthyOpt userId then [] else authMeTrace st.authToken env.authMe)
        ++ [Action.dispatch Endpoint.sessions]
        ++ procTrace true Endpoint.sessions env.sessions := by
  unfold getChatSessions recordDispatch
  by_cases h : jsTruthyOpt userId <;>
    simp [h, uniformFinish_trace, fetchUserEmail_trace, Request.base]

theorem getChatSessions_requests_noUser (env : Env) (st : St) :
    (getChatSessions env none st).2.requests
      = st.requests ++ authMeReqList st.authToken
        ++ [{ Request.base Endpoint.sessions with
              user_id := if jsTruthyOpt (fetchUserEmailFromProfile env st).1
                then some (fetchUserEmailFromProfile env st).1 else none }] := by
  unfold getChatSessions recordDispatch
  simp [jsTruthyOpt, uniformFinish_requests, fetchUserEmail_requests]

theorem routeLatest_trace (env : Env) (sessionId : String) (userId : Option String)
    (st : St) :
    (routeLatest env sessionId userId st).2.trace
      = st.trace ++ (if jsTruthyOpt userId then [] else authMeTrace st.authToken env.authMe)
        ++ [Action.dispatch Endpoint.route]
        ++ procTrace true Endpoint.route env.route := by
  unfold routeLatest recordDispatch
  by_cases h : jsTruthyOpt userId <;>
    simp [h, uniformFinish_trace, fetchUserEmail_trace, Request.base]

theorem routeLatest_requests_noUser (env : Env) (sessionId : String) (st : St) :
    (routeLatest env sessionId none st).2.requests
      = st.requests ++ authMeReqList st.authToken
        ++ [{ Request.base Endpoint.route with
              prefixStr := some (if env.isUndergraduate (fetchUserEmailFromProfile env st).1
                then "ruh" else "ugc"),
              session_id := if sessionId = "" then none else some sessionId,
              user_id := if jsTruthyOpt (fetchUserEmailFromProfile env st).1
                then some (fetchUserEmailFromProfile env st).1 else none }] := by
  unfold routeLatest recordDispatch
  simp [jsTruthyOpt, uniformFinish_requests, fetchUserEmail_requests]

theorem wellProcessed_procTrace_nil {β : Type} (b : Bool) (e : Endpoint)
    (o : FetchOutcome β) (he : (e == Endpoint.authMe) = false) :
    wellProcessed (procTrace b e o) = true := by
  have h := wellProcessed_procTrace b e o [] he
  rw [List.append_nil] at h
  rw [h]
  rfl

/-! ### Concrete fixtures -/

/-- A sample successful RUH chat body. -/
def ruhOkBody : ChatJson :=
  { response := some "hello", conversation_history := some ["m1"], session_id := some "s1" }

/-- A sample successful UGC chat body. -/
def ugcOkBody : ChatJson :=
  { response := some "ok", conversation_history := some ["u1"], session_id := some "s2" }

/-- A sample environment: a non-undergraduate user `user@x`, all calls
succeeding with status 200, no fault injection. -/
def baseEnv : Env :=
  { isUndergraduate := fun _ => false,
    removeItemThrows := false,
    customEventThrows := false,
    authMe := FetchOutcome.success ⟨200, none, ⟨some "user@x"⟩⟩,
    ruh := FetchOutcome.success ⟨200, none, ruhOkBody⟩,
    ugc := FetchOutcome.success ⟨200, none, ugcOkBody⟩,
    chatSession := FetchOutcome.success ⟨200, none, ⟨"cs"⟩⟩,
    feedback := FetchOutcome.success ⟨200, none, ⟨"fb"⟩⟩,
    history := FetchOutcome.success ⟨200, none, ⟨"hi"⟩⟩,
    health := FetchOutcome.success ⟨200, none, ⟨"he"⟩⟩,
    sessions := FetchOutcome.success ⟨200, none, ⟨"se"⟩⟩,
    route := FetchOutcome.success ⟨200, none, ⟨"ro"⟩⟩ }

/-- A sample initial state holding the token `T1`. -/
def baseSt : St := ⟨some "T1", [], [], []⟩

/-- The sample environment with an undergraduate classification. -/
def ugEnv : Env := { baseEnv with isUndergraduate := fun _ => true }

/-- The sample environment with the RUH call answering 503. -/
def ruh503Env : Env :=
  { baseEnv with ruh := FetchOutcome.success ⟨503, none, ruhOkBody⟩ }

/-- The sample environment with the RUH call rejecting (network error). -/
def ruhDownEnv : Env := { baseEnv with ruh := FetchOutcome.failure "down" }

/-- C8 counterexample: the `/auth/me` identity-lookup response is NOT
passed through token rotation or 401/403 handling.  A 200 response with
rotation header `T2` has its body extracted (the email is returned) while
the stored token stays `T1`; a 403 response with the same header leaves
the token `T1` (neither rotated to `T2` nor cleared) and broadcasts no
event. -/
theorem claim8_counterexample_authMe_not_processed :
    ((fetchUserEmailFromProfile
        { baseEnv with authMe := FetchOutcome.success ⟨200, some "T2", ⟨some "user@x"⟩⟩ }
        baseSt).1 = some "user@x"
      ∧ (fetchUserEmailFromProfile
          { baseEnv with authMe := FetchOutcome.success ⟨200, some "T2", ⟨some "user@x"⟩⟩ }
          baseSt).2.authToken = some "T1"
      ∧ (fetchUserEmailFromProfile
          { baseEnv with authMe := FetchOutcome.success ⟨200, some "T2", ⟨some "user@x"⟩⟩ }
          baseSt).2.events = [])
    ∧ ((fetchUserEmailFromProfile
          { baseEnv with authMe := FetchOutcome.success ⟨403, some "T2", ⟨some "user@x"⟩⟩ }
          baseSt).2.authToken = some "T1"
      ∧ (fetchUserEmailFromProfile
          { baseEnv with authMe := FetchOutcome.success ⟨403, some "T2", ⟨some "user@x"⟩⟩ }
          baseSt).2.events = []) :=
  ⟨⟨rfl, rfl, rfl⟩, rfl, rfl⟩

/-- C8 (amended): every response except the `/auth/me` identity lookup is
passed through rotation and auth handling immediately after being awaited
(hence before any body extraction), in every operation; the `/auth/me`
response is passed through neither. -/
theorem claim8_amended_rotation_on_all_but_authMe
    (env : Env) (tok : Option String) (evs : List AuthEvent) (reqs : List Request)
    (message sessionId feedbackType : String) (messageIndex : Nat)
    (guidanceFilter userId : Option String) (onlyUseRuh : Option Bool) :
    (wellProcessed (sendMessage env message sessionId guidanceFilter onlyUseRuh
          ⟨tok, evs, [], reqs⟩).2.trace = true
      ∧ noAuthMeHandling (sendMessage env message sessionId guidanceFilter onlyUseRuh
          ⟨tok, evs, [], reqs⟩).2.trace = true)
    ∧ (wellProcessed (createNewChatSession env userId ⟨tok, evs, [], reqs⟩).2.trace = true
      ∧ noAuthMeHandling (createNewChatSession env userId ⟨tok, evs, [], reqs⟩).2.trace = true)
    ∧ (wellProcessed (sendFeedback env sessionId messageIndex feedbackType userId
          ⟨tok, evs, [], reqs⟩).2.trace = true
      ∧ noAuthMeHandling (sendFeedback env sessionId messageIndex feedbackType userId
          ⟨tok, evs, [], reqs⟩).2.trace = true)
    ∧ (wellProcessed (getChatHistory env sessionId userId ⟨tok, evs, [], reqs⟩).2.trace = true
      ∧ noAuthMeHandling (getChatHistory env sessionId userId ⟨tok, evs, [], reqs⟩).2.trace = true)
    ∧ (wellProcessed (healthCheck env ⟨tok, evs, [], reqs⟩).2.trace = true
      ∧ noAuthMeHandling (healthCheck env ⟨tok, evs, [], reqs⟩).2.trace = true)
    ∧ (wellProcessed (getChatSessions env userId ⟨tok, evs, [], reqs⟩).2.trace = true
      ∧ noAuthMeHandling (getChatSessions env userId ⟨tok, evs, [], reqs⟩).2.trace = true)
    ∧ (wellProcessed (routeLatest env sessionId userId ⟨tok, evs, [], reqs⟩).2.trace = true
      ∧ noAuthMeHandling (routeLatest env sessionId userId ⟨tok, evs, [], reqs⟩).2.trace = true) := by
  refine ⟨?_, ?_, ?_, ?_, ?_, ?_, ?_⟩
  · -- sendMessage: case on the role and the flag
    cases hU : env.isUndergraduate (fetchUserEmailFromProfile env ⟨tok, evs, [], reqs⟩).1 with
    | true =>
        rw [sendMessage_trace_ug env message sessionId guidanceFilter onlyUseRuh _ hU]
        constructor
        · simp only [List.nil_append, List.append_assoc, List.cons_append,
            wellProcessed_authMeTrace, wellProcessed_cons_dispatch]
          exact wellProcessed_procTrace_nil true Endpoint.ruhChat env.ruh rfl
        · simp [noAuthMeHandling_append, noAuthMeHandling_authMeTrace,
            noAuthMeHandling_cons_dispatch, noAuthMeHandling_nil,
            noAuthMeHandling_procTrace true Endpoint.ruhChat env.ruh (by decide)]
    | false =>
        cases onlyUseRuh with
        | none =>
            rw [sendMessage_trace_dual env message sessionId guidanceFilter _ hU]
            constructor
            · simp only [List.nil_append, List.append_assoc, List.cons_append,
                wellProcessed_authMeTrace, wellProcessed_cons_dispatch,
                wellProcessed_procTrace true Endpoint.ruhChat env.ruh _ rfl]
              exact wellProcessed_procTrace_nil true Endpoint.ugcChat env.ugc rfl
            · simp [noAuthMeHandling_append, noAuthMeHandling_authMeTrace,
                noAuthMeHandling_cons_dispatch, noAuthMeHandling_nil,
                noAuthMeHandling_procTrace true Endpoint.ruhChat env.ruh (by decide),
                noAuthMeHandling_procTrace true Endpoint.ugcChat env.ugc (by decide)]
        | some b =>
            cases b with
            | true =>
                rw [sendMessage_trace_ruhOnly env message sessionId guidanceFilter _ hU]
                constructor
                · simp only [List.nil_append, List.append_assoc, List.cons_append,
                    wellProcessed_authMeTrace, wellProcessed_cons_dispatch]
                  exact wellProcessed_procTrace_nil true Endpoint.ruhChat env.ruh rfl
                · simp [noAuthMeHandling_append, noAuthMeHandling_authMeTrace,
                    noAuthMeHandling_cons_dispatch, noAuthMeHandling_nil,
                    noAuthMeHandling_procTrace true Endpoint.ruhChat env.ruh (by decide)]
            | false =>
                rw [sendMessage_trace_ugcOnly env message sessionId guidanceFilter _ hU]
                constructor
                · simp only [List.nil_append, List.append_assoc, List.cons_append,
                    wellProcessed_authMeTrace, wellProcessed_cons_dispatch]
                  exact wellProcessed_procTrace_nil true Endpoint.ugcChat env.ugc rfl
                · simp [noAuthMeHandling_append, noAuthMeHandling_authMeTrace,
                    noAuthMeHandling_cons_dispatch, noAuthMeHandling_nil,
                    noAuthMeHandling_procTrace true Endpoint.ugcChat env.ugc (by decide)]
  · rw [createNewChatSession_trace]
    constructor
    · by_cases h : jsTruthyOpt userId <;>
        simp [h, wellProcessed_authMeTrace, wellProcessed_cons_dispatch,
          wellProcessed_procTrace_nil true Endpoint.chatSession env.chatSession rfl]
    · by_cases h : jsTruthyOpt userId <;>
        simp [h, noAuthMeHandling_append, noAuthMeHandling_authMeTrace,
          noAuthMeHandling_cons_dispatch, noAuthMeHandling_nil,
          noAuthMeHandling_procTrace true Endpoint.chatSession env.chatSession (by decide)]
  · rw [sendFeedback_trace]
    constructor
    · simp only [List.nil_append, List.append_assoc, List.cons_append,
        wellProcessed_cons_dispatch]
      exact wellProcessed_procTrace_nil false Endpoint.feedback env.feedback rfl
    · simp [noAuthMeHandling_append, noAuthMeHandling_cons_dispatch, noAuthMeHandling_nil,
        noAuthMeHandling_procTrace false Endpoint.feedback env.feedback (by decide)]
  · rw [getChatHistory_trace]
    constructor
    · by_cases h : jsTruthyOpt userId <;>
        simp [h, wellProcessed_authMeTrace, wellProcessed_cons_dispatch,
          wellProcessed_procTrace_nil true Endpoint.history env.history rfl]
    · by_cases h : jsTruthyOpt userId <;>
        simp [h, noAuthMeHandling_append, noAuthMeHandling_authMeTrace,
          noAuthMeHandling_cons_dispatch, noAuthMeHandling_nil,
          noAuthMeHandling_procTrace true Endpoint.history env.history (by decide)]
  · rw [healthCheck_trace]
    constructor
    · simp only [List.nil_append, List.append_assoc, List.cons_append,
        wellProcessed_cons_dispatch]
      exact wellProcessed_procTrace_nil true Endpoint.health env.health rfl
    · simp [noAuthMeHandling_append, noAuthMeHandling_cons_dispatch, noAuthMeHandling_nil,
        noAuthMeHandling_procTrace true Endpoint.health env.health (by decide)]
  · rw [getChatSessions_trace]
    constructor
    · by_cases h : jsTruthyOpt userId <;>
        simp [h, wellProcessed_authMeTrace, wellProcessed_cons_dispatch,
          wellProcessed_procTrace_nil true Endpoint.sessions env.sessions rfl]
    · by_cases h : jsTruthyOpt userId <;>
        simp [h, noAuthMeHandling_append, noAuthMeHandling_authMeTrace,
          noAuthMeHandling_cons_dispatch, noAuthMeHandling_nil,
          noAuthMeHandling_procTrace true Endpoint.sessions env.sessions (by decide)]
  · rw [routeLatest_trace]
    constructor
    · by_cases h : jsTruthyOpt userId <;>
        simp [h, wellProcessed_authMeTrace, wellProcessed_cons_dispatch,
          wellProcessed_procTrace_nil true Endpoint.route env.route rfl]
    · by_cases h : jsTruthyOpt userId <;>
        simp [h, noAuthMeHandling_append, noAuthMeHandling_authMeTrace,
          noAuthMeHandling_cons_dispatch, noAuthMeHandling_nil,
          noAuthMeHandling_procTrace true Endpoint.route env.route (by decide)]

/-- C9 counterexample: `sendFeedback`, called without `userId`, neither
resolves the identity (no `/auth/me` dispatch appears in its trace) nor
sends any `user_id` — although the resolver would have produced
`user@x`. -/
theorem claim9_counterexample_sendFeedback_no_resolution :
    (fetchUserEmailFromProfile baseEnv baseSt).1 = some "user@x"
    ∧ (sendFeedback baseEnv "s1" 0 "like" none baseSt).2.requests
        = [{ Request.base Endpoint.feedback with
              session_id := some "s1", message_index := some 0,
              feedback_type := some "like", user_id := none }]
    ∧ Action.dispatch Endpoint.authMe ∉ (sendFeedback baseEnv "s1" 0 "like" none baseSt).2.trace := by
  refine ⟨rfl, rfl, ?_⟩
  decide

/-- C9 (amended): `createNewChatSession`, `getChatHistory`,
`getChatSessions` and `routeLatest`, called without an explicit `userId`,
resolve the identity via `/auth/me` and use it as the `user_id`
(`createNewChatSession` always serializes the key, even for a null
identity; the query-parameter operations include `user_id` exactly when
the identity is truthy and omit it entirely otherwise); `sendFeedback`
forwards its raw `userId` argument without any resolution (omitting the
key when absent), and `healthCheck` involves no user identity at all. -/
theorem claim9_amended_identity_resolution
    (env : Env) (st : St) (sessionId feedbackType : String) (messageIndex : Nat)
    (userId : Option String) :
    (createNewChatSession env none st).2.requests
        = st.requests ++ authMeReqList st.authToken
          ++ [{ Request.base Endpoint.chatSession with
                user_id := some (fetchUserEmailFromProfile env st).1 }]
    ∧ (getChatHistory env sessionId none st).2.requests
        = st.requests ++ authMeReqList st.authToken
          ++ [{ Request.base Endpoint.history with
                session_id := some sessionId,
                user_id := if jsTruthyOpt (fetchUserEmailFromProfile env st).1
                  then some (fetchUserEmailFromProfile env st).1 else none }]
    ∧ (getChatSessions env none st).2.requests
        = st.requests ++ authMeReqList st.authToken
          ++ [{ Request.base Endpoint.sessions with
                user_id := if jsTruthyOpt (fetchUserEmailFromProfile env st).1
                  then some (fetchUserEmailFromProfile env st).1 else none }]
    ∧ (routeLatest env sessionId none st).2.requests
        = st.requests ++ authMeReqList st.authToken
          ++ [{ Request.base Endpoint.route with
                prefixStr := some (if env.isUndergraduate (fetchUserEmailFromProfile env st).1
                  then "ruh" else "ugc"),
                session_id := if sessionId = "" then none else some sessionId,
                user_id := if jsTruthyOpt (fetchUserEmailFromProfile env st).1
                  then some (fetchUserEmailFromProfile env st).1 else none }]
    ∧ (sendFeedback env sessionId messageIndex feedbackType userId st).2.requests
        = st.requests ++ [{ Request.base Endpoint.feedback with
              session_id := some sessionId,
              message_index := some messageIndex,
              feedback_type := some feedbackType,
              user_id := match userId with
                | some u => some (some u)
                | none => none }]
    ∧ (sendFeedback env sessionId messageIndex feedbackType userId st).2.trace
        = st.trace ++ [Action.dispatch Endpoint.feedback]
          ++ procTrace false Endpoint.feedback env.feedback
    ∧ (healthCheck env st).2.requests = st.requests ++ [Request.base Endpoint.health]
    ∧ (healthCheck env st).2.trace
        = st.trace ++ [Action.dispatch Endpoint.health]
          ++ procTrace true Endpoint.health env.health :=
  ⟨createNewChatSession_requests_noUser env st,
    getChatHistory_requests_noUser env sessionId st,
    getChatSessions_requests_noUser env st,
    routeLatest_requests_noUser env sessionId st,
    sendFeedback_requests env sessionId messageIndex feedbackType userId st,
    sendFeedback_trace env sessionId messageIndex feedbackType userId st,
    healthCheck_requests env st,
    healthCheck_trace env st⟩

/-! ### Witnesses -/

/-- C1 witness at the sample non-undergraduate environment. -/
theorem claim1_witness :
    baseEnv.isUndergraduate (fetchUserEmailFromProfile baseEnv baseSt).1 = false
    ∧ chatDispatches ((sendMessage baseEnv "hi" "s" none none baseSt).2.trace)
        = chatDispatches baseSt.trace ++ [Endpoint.ruhChat, Endpoint.ugcChat]
    ∧ chatDispatches ((sendMessage baseEnv "hi" "s" none (some true) baseSt).2.trace)
        = chatDispatches baseSt.trace ++ [Endpoint.ruhChat]
    ∧ chatDispatches ((sendMessage baseEnv "hi" "s" none (some false) baseSt).2.trace)
        = chatDispatches baseSt.trace ++ [Endpoint.ugcChat]
    ∧ (sendMessage { baseEnv with ugc := FetchOutcome.failure "boom" }
          "hi" "s" none (some true) baseSt).1
        = (sendMessage baseEnv "hi" "s" none (some true) baseSt).1 := by
  have h := claim1_tristate_endpoint_selection baseEnv baseSt "hi" "s" none rfl
  exact ⟨rfl, h.1, h.2.1, h.2.2.1, h.2.2.2.1 (FetchOutcome.failure "boom")⟩

/-- C2 witness at the sample undergraduate environment, with a success
and a 503 variant, with `onlyUseRuh = some false` to exercise flag
independence. -/
theorem claim2_witness :
    ugEnv.isUndergraduate (fetchUserEmailFromProfile ugEnv baseSt).1 = true
    ∧ chatDispatches ((sendMessage ugEnv "hi" "s" none (some false) baseSt).2.trace)
        = chatDispatches baseSt.trace ++ [Endpoint.ruhChat]
    ∧ (sendMessage ugEnv "hi" "s" none (some false) baseSt).1 = Except.ok ruhOkBody
    ∧ (sendMessage { ugEnv with ruh := FetchOutcome.success ⟨503, none, ruhOkBody⟩ }
          "hi" "s" none (some false) baseSt).1
        = Except.error ("HTTP error! status: " ++ toString (503 : Nat)) := by
  have h := claim2_undergraduate_ruh_only ugEnv baseSt "hi" "s" none (some false) rfl
  have h2 := claim2_undergraduate_ruh_only
    { ugEnv with ruh := FetchOutcome.success ⟨503, none, ruhOkBody⟩ }
    baseSt "hi" "s" none (some false) rfl
  exact ⟨rfl, h.1, (h.2 ⟨200, none, ruhOkBody⟩ rfl).2 (by decide),
    (h2.2 ⟨503, none, ruhOkBody⟩ rfl).1 (by decide)⟩

/-- C3 witness at the sample environment where both sides succeed. -/
theorem claim3_witness :
    baseEnv.isUndergraduate (fetchUserEmailFromProfile baseEnv baseSt).1 = false
    ∧ (sideResult "RUH" baseEnv.ruh "s").response = some "hello"
    ∧ (sideResult "UGC" baseEnv.ugc "s").response = some "ok"
    ∧ (sendMessage baseEnv "hi" "s" none none baseSt).1
        = Except.ok (combineResponses (sideResult "RUH" baseEnv.ruh "s")
            (sideResult "UGC" baseEnv.ugc "s") "s")
    ∧ (combineResponses (sideResult "RUH" baseEnv.ruh "s")
          (sideResult "UGC" baseEnv.ugc "s") "s").response
        = some ("[RUH]\n" ++ "hello" ++ "\n\n[UGC]\n" ++ "ok")
    ∧ (combineResponses (sideResult "RUH" baseEnv.ruh "s")
          (sideResult "UGC" baseEnv.ugc "s") "s").conversation_history
        = some (["m1"] ++ ["u1"])
    ∧ (combineResponses (sideResult "RUH" baseEnv.ruh "s")
          (sideResult "UGC" baseEnv.ugc "s") "s").session_id
        = some (firstNonEmpty [(sideResult "RUH" baseEnv.ruh "s").session_id,
            (sideResult "UGC" baseEnv.ugc "s").session_id] "s") := by
  have h := claim3_combined_response_shape baseEnv baseSt "hi" "s" none
    "hello" "ok" ["m1"] ["u1"] rfl rfl (by decide) rfl rfl (by decide) rfl
  exact ⟨rfl, rfl, rfl, h.1, h.2.1, h.2.2.1, h.2.2.2⟩

/-- C4 witness: a network-error placeholder, an HTTP-failure placeholder,
and a 503 RUH combined with a successful UGC. -/
theorem claim4_witness :
    sideResult "RUH" (FetchOutcome.failure "boom") "s"
        = { response := some ("RUH" ++ " request error: " ++ "boom"),
            conversation_history := some [], session_id := some "s" }
    ∧ (⟨503, none, ruhOkBody⟩ : HttpResp ChatJson).ok = false
    ∧ sideResult "RUH" (FetchOutcome.success ⟨503, none, ruhOkBody⟩) "s"
        = { response := some ("RUH" ++ " request failed: "
              ++ toString (⟨503, none, ruhOkBody⟩ : HttpResp ChatJson).status),
            conversation_history := some [], session_id := some "s" }
    ∧ (sendMessage ruh503Env "hi" "s" none none baseSt).1
        = Except.ok (combineResponses
            { response := some ("RUH request failed: " ++ toString (503 : Nat)),
              conversation_history := some [], session_id := some "s" }
            ugcOkBody "s")
    ∧ (combineResponses
          { response := some ("RUH request failed: " ++ toString (503 : Nat)),
            conversation_history := some [], session_id := some "s" }
          ugcOkBody "s").response
        = some ("[RUH]\nRUH request failed: " ++ toString (503 : Nat)
            ++ "\n\n[UGC]\n" ++ jsOr ugcOkBody.response "(no response)") := by
  have h := claim4_per_side_failure_placeholders ruh503Env baseSt "hi" "s" none
    "RUH" "boom" ⟨503, none, ruhOkBody⟩
  have hc := h.2.2 rfl ⟨503, none, ruhOkBody⟩ ⟨200, none, ugcOkBody⟩ rfl (by decide)
    rfl (by decide)
  exact ⟨h.1, by decide, h.2.1 (by decide), hc.1, hc.2⟩

/-- C5 witness: a 403 response that also carries the rotation header `T2`,
with and without a throwing `CustomEvent` constructor. -/
theorem claim5_witness :
    ((403 : Nat) = 401 ∨ (403 : Nat) = 403)
    ∧ (handleAuthError baseEnv (⟨403, some "T2", ruhOkBody⟩ : HttpResp ChatJson)
        (updateAccessTokenFromResponse ⟨403, some "T2", ruhOkBody⟩ baseSt)).authToken = none
    ∧ (handleAuthError baseEnv (⟨403, some "T2", ruhOkBody⟩ : HttpResp ChatJson)
        (updateAccessTokenFromResponse ⟨403, some "T2", ruhOkBody⟩ baseSt)).events
        = baseSt.events ++ [AuthEvent.customEvent "auth:logout" 403]
    ∧ (handleAuthError { baseEnv with customEventThrows := true }
        (⟨403, some "T2", ruhOkBody⟩ : HttpResp ChatJson)
        (updateAccessTokenFromResponse ⟨403, some "T2", ruhOkBody⟩ baseSt)).events
        = baseSt.events ++ [AuthEvent.legacyEvent "auth:logout" 403] := by
  have h1 := claim5_auth_failure_clears_token_and_broadcasts baseEnv
    (⟨403, some "T2", ruhOkBody⟩ : HttpResp ChatJson) baseSt (Or.inr rfl)
  have h2 := claim5_auth_failure_clears_token_and_broadcasts
    { baseEnv with customEventThrows := true }
    (⟨403, some "T2", ruhOkBody⟩ : HttpResp ChatJson) baseSt (Or.inr rfl)
  exact ⟨Or.inr rfl, h1.1 rfl, h1.2.1, h2.2.1⟩

/-- C6 witness at the sample environment's dual path. -/
theorem claim6_witness :
    baseEnv.isUndergraduate (fetchUserEmailFromProfile baseEnv baseSt).1 = false
    ∧ (sendMessage baseEnv "hi" "s" none none baseSt).2.trace
        = baseSt.trace ++ authMeTrace baseSt.authToken baseEnv.authMe
          ++ [Action.dispatch Endpoint.ruhChat, Action.dispatch Endpoint.ugcChat]
          ++ procTrace true Endpoint.ruhChat baseEnv.ruh
          ++ procTrace true Endpoint.ugcChat baseEnv.ugc
    ∧ (Action.endpointOf (Action.awaited Endpoint.ruhChat) = Endpoint.ruhChat
        ∧ Action.isDispatch (Action.awaited Endpoint.ruhChat) = false) := by
  have h := claim6_dispatch_concurrent_processing_sequential baseEnv baseSt "hi" "s" none rfl
  exact ⟨rfl, h.1, h.2.1 (Action.awaited Endpoint.ruhChat) (by decide)⟩

/-- C7 witness: a failed sole RUH call returns its placeholder in a normal
return, and a successful sole UGC call returns its body verbatim. -/
theorem claim7_witness :
    ruhDownEnv.isUndergraduate (fetchUserEmailFromProfile ruhDownEnv baseSt).1 = false
    ∧ (sendMessage ruhDownEnv "hi" "s" none (some true) baseSt).1
        = Except.ok (sideResult "RUH" ruhDownEnv.ruh "s")
    ∧ (sendMessage baseEnv "hi" "s" none (some false) baseSt).1 = Except.ok ugcOkBody := by
  have h := claim7_single_side_returned_as_is ruhDownEnv baseSt "hi" "s" none rfl
  have h2 := claim7_single_side_returned_as_is baseEnv baseSt "hi" "s" none rfl
  exact ⟨rfl, h.1, h2.2.2.2 ⟨200, none, ugcOkBody⟩ rfl (by decide)⟩

/-- C10 witness: an empty RUH text yields the `(no response)` substitute,
and the combined text differs from the raw concatenation. -/
theorem claim10_witness :
    ((⟨some "", some [], some "x"⟩ : ChatJson).response = none
      ∨ (⟨some "", some [], some "x"⟩ : ChatJson).response = some "")
    ∧ (combineResponses ⟨some "", some [], some "x"⟩ ugcOkBody "s").response
        = some ("[RUH]\n(no response)\n\n[UGC]\n" ++ "ok")
    ∧ (combineResponses ⟨some "", some [], some "x"⟩ ugcOkBody "s").response
        ≠ some ("[RUH]\n" ++ "" ++ ("\n\n[UGC]\n" ++ "ok")) := by
  have h := (claim10_no_response_substitution ⟨some "", some [], some "x"⟩ ugcOkBody "s").1
    "ok" (Or.inr rfl) rfl (by decide)
  exact ⟨Or.inr rfl, h.1, h.2⟩

end ChatAPI
